import Mathlib

/-!
Shallow embedding of `src/motomap.py` (the `main` pipeline, lines 80-150).

Modelling conventions:
* instants (`datetime` values) are `Int` seconds since an arbitrary epoch;
  `timedelta(minutes=5)` is `300`;
* `datetime.fromisoformat(s[:-1])` (drop the trailing zone marker, treat as
  UTC-naive) is absorbed into the embedding: segment and ping records carry
  the already-parsed instant as an `Int`;
* an aware datetime `utc.localize(t).astimezone(z)` is a `ZonedTime`: the
  rendering zone name together with the (unchanged) UTC instant - `astimezone`
  never moves the instant, it only changes the zone used for display;
* Python float division `latitudeE7 / 10000000` is exact `Rat` division;
* a `KeyError` raised by the pings loop is `Except.error`.
-/

/-- The configuration flags consumed by the pipeline (lines 15-41):
`start_date`, `end_date` (parsed to instants), the `timezone` flag value and
the `accuracy` threshold. -/
structure Config where
  start_date : Int
  end_date : Int
  timezone : String
  accuracy : Int
deriving DecidableEq

/-- An aware datetime as the output renders it: a zone name plus the UTC
instant it denotes. -/
structure ZonedTime where
  zone : String
  instant : Int
deriving DecidableEq

/-- One entry of `location_history["locations"]` (lines 99-104): every field
is optional in the input. `timestamp`, `latitudeE7`, `longitudeE7`,
`accuracy` and `deviceTag` as in the JSON. -/
structure LocationEntry where
  timestamp : Option Int
  latitudeE7 : Option Int
  longitudeE7 : Option Int
  accuracy : Option Int
  deviceTag : Option Int
deriving DecidableEq

/-- `activity["duration"]` (lines 87-88): start and end timestamps, already
parsed from the zone-marker-stripped ISO string as UTC instants. -/
structure Duration where
  startTimestamp : Int
  endTimestamp : Int
deriving DecidableEq

/-- `timeline_event["activitySegment"]` (lines 84-88). -/
structure ActivitySegment where
  activityType : String
  duration : Duration
deriving DecidableEq

/-- One entry of `semantic_history["timelineObjects"]` (line 83); the
`activitySegment` key may be absent (line 84). -/
structure TimelineEvent where
  activitySegment : Option ActivitySegment
deriving DecidableEq

/-- The waypoint dict built at lines 110-113: `lat`, `lon` in decimal
degrees, `time` an aware datetime in the display zone. -/
structure Waypoint where
  lat : Rat
  lon : Rat
  time : ZonedTime
deriving DecidableEq

/-- The journey dict built at line 92. -/
structure Journey where
  startTime : Int
  endTime : Int
  waypoints : List Waypoint
deriving DecidableEq

/-- The feature dict built at lines 128-140, with the nested `properties`
and `geometry` dicts flattened; `coordinates` is the list of
`[lon, lat]` pairs. -/
structure Feature where
  id : String
  type : String
  ranking : Int
  startDate : ZonedTime
  endDate : ZonedTime
  geometryType : String
  coordinates : List (Rat × Rat)
deriving DecidableEq

/-- Line 96: `new_timezone = pytz.timezone("US/Pacific")` - a hardcoded
literal; the `FLAGS.timezone` value is never read by the pipeline. -/
def new_timezone : String := "US/Pacific"

/-- `timedelta(minutes=5)` in seconds. -/
def fiveMinutes : Int := 300

/-- Line 102: the hardcoded excluded device identifier. -/
def excludedDeviceTag : Int := 464913864

/-- Lines 84-92: the journey (if any) extracted from one timeline event:
present exactly when the event has an `activitySegment` of type
`MOTORCYCLING` whose bounds lie inside `[start_date, end_date]`. -/
def eventJourney (cfg : Config) (ev : TimelineEvent) : Option Journey :=
  match ev.activitySegment with
  | none => none
  | some activity =>
    if activity.activityType = "MOTORCYCLING" then
      let start := activity.duration.startTimestamp
      let stop := activity.duration.endTimestamp
      if start < cfg.start_date ∨ stop > cfg.end_date then none
      else some { startTime := start, endTime := stop, waypoints := [] }
    else none

/-- Lines 81-92: the journeys list accumulated over all semantic
histories and their timeline events. -/
def extractJourneys (cfg : Config) (semantic_histories : List (List TimelineEvent)) :
    List Journey :=
  (semantic_histories.map (fun h => h.filterMap (eventJourney cfg))).flatten

/-- Lines 109-113: the waypoint built for a matching ping - fixed-point
coordinates divided by 10^7, timestamp rendered in the (hardcoded) display
zone with the instant unchanged. -/
def makeWaypoint (ts latE7 lonE7 : Int) : Waypoint :=
  { lat := (latE7 : Rat) / 10000000,
    lon := (lonE7 : Rat) / 10000000,
    time := { zone := new_timezone, instant := ts } }

/-- Lines 106-114: one iteration of the inner journeys loop - append the
waypoint when the asymmetric tolerance window holds (both comparisons
strict), else leave the journey unchanged. -/
def appendIfInWindow (ts latE7 lonE7 : Int) (journey : Journey) : Journey :=
  if journey.startTime - fiveMinutes < ts ∧ ts < journey.endTime + fiveMinutes then
    { journey with waypoints := journey.waypoints ++ [makeWaypoint ts latE7 lonE7] }
  else journey

/-- Lines 99-114: processing of a single location entry.
Line 100 reads `location["timestamp"]` unconditionally, so an absent
timestamp raises `KeyError`. Otherwise the filter of lines 101-104 either
skips the ping (journeys unchanged) or the inner loop appends it to every
journey whose window contains it. -/
def processLocation (cfg : Config) (journeys : List Journey) (location : LocationEntry) :
    Except String (List Journey) :=
  match location.timestamp with
  | none => .error "KeyError: timestamp"
  | some timestamp =>
    if timestamp < cfg.start_date ∨ timestamp > cfg.end_date ∨
        location.deviceTag = some excludedDeviceTag then
      .ok journeys
    else
      match location.latitudeE7, location.longitudeE7, location.accuracy with
      | some latE7, some lonE7, some acc =>
          if acc > cfg.accuracy then .ok journeys
          else .ok (journeys.map (appendIfInWindow timestamp latE7 lonE7))
      | _, _, _ => .ok journeys

/-- The full correlation pass of lines 99-114: fold `processLocation` over
the locations; a raised `KeyError` aborts the pass. -/
def correlate (cfg : Config) : List Journey → List LocationEntry → Except String (List Journey)
  | journeys, [] => .ok journeys
  | journeys, location :: rest =>
    match processLocation cfg journeys location with
    | .error e => .error e
    | .ok js => correlate cfg js rest

/-- The sort key of line 117: `item["startTime"]`. -/
def journeyLE (a b : Journey) : Prop := a.startTime ≤ b.startTime

instance : DecidableRel journeyLE := fun a b => Int.decLe a.startTime b.startTime

instance : IsTotal Journey journeyLE := ⟨fun a b => Int.le_total a.startTime b.startTime⟩

instance : IsTrans Journey journeyLE := ⟨fun _ _ _ h h' => le_trans h h'⟩

/-- The sort key of line 123: `item["time"]` - comparing aware datetimes
compares the instants they denote. -/
def waypointLE (a b : Waypoint) : Prop := a.time.instant ≤ b.time.instant

instance : DecidableRel waypointLE := fun a b => Int.decLe a.time.instant b.time.instant

instance : IsTotal Waypoint waypointLE := ⟨fun a b => Int.le_total a.time.instant b.time.instant⟩

instance : IsTrans Waypoint waypointLE := ⟨fun _ _ _ h h' => le_trans h h'⟩

/-- Line 117: `journeys.sort(key=lambda item: item["startTime"])`. -/
def sortJourneys (journeys : List Journey) : List Journey :=
  journeys.insertionSort journeyLE

/-- Line 123: `journey["waypoints"].sort(key=lambda item: item["time"])`. -/
def sortWaypoints (ws : List Waypoint) : List Waypoint :=
  ws.insertionSort waypointLE

/-- Lines 122-140: the feature built for one journey - waypoints sorted by
time, coordinates as `[lon, lat]` pairs in that order, `ranking = 0`,
`startDate`/`endDate` localized to the hardcoded display zone with the
instants unchanged (lines 133-134), geometry type `LineString`. -/
def journeyFeature (id : Nat) (journey : Journey) : Feature :=
  let ws := sortWaypoints journey.waypoints
  { id := toString id,
    type := "Feature",
    ranking := 0,
    startDate := { zone := new_timezone, instant := journey.startTime },
    endDate := { zone := new_timezone, instant := journey.endTime },
    geometryType := "LineString",
    coordinates := ws.map (fun w => (w.lon, w.lat)) }

/-- Lines 120-142: the features loop with its counter starting at `id`. -/
def featuresFrom (id : Nat) : List Journey → List Feature
  | [] => []
  | journey :: rest => journeyFeature id journey :: featuresFrom (id + 1) rest

/-- Lines 116-142: sort the journeys, then emit one feature per journey
with ids counting from 1. -/
def assemble (journeys : List Journey) : List Feature :=
  featuresFrom 1 (sortJourneys journeys)

/-! ### Helper lemmas about the correlator -/

/-- A ping that passes every per-ping filter of lines 100-104 reaches the
inner loop: the journeys list is mapped through `appendIfInWindow`. -/
theorem processLocation_survive (cfg : Config) (loc : LocationEntry)
    (ts latE7 lonE7 acc : Int) (js : List Journey)
    (hts : loc.timestamp = some ts) (hlat : loc.latitudeE7 = some latE7)
    (hlon : loc.longitudeE7 = some lonE7) (hacc : loc.accuracy = some acc)
    (hsd : ¬ ts < cfg.start_date) (hed : ¬ ts > cfg.end_date)
    (hdev : loc.deviceTag ≠ some excludedDeviceTag)
    (hok : ¬ acc > cfg.accuracy) :
    processLocation cfg js loc = .ok (js.map (appendIfInWindow ts latE7 lonE7)) := by
  simp [processLocation, hts, hlat, hlon, hacc, hsd, hed, hdev, hok]

/-- The waypoints of `appendIfInWindow` spelled out by cases. -/
theorem appendIfInWindow_waypoints (ts latE7 lonE7 : Int) (j : Journey) :
    (appendIfInWindow ts latE7 lonE7 j).waypoints =
      if j.startTime - fiveMinutes < ts ∧ ts < j.endTime + fiveMinutes
      then j.waypoints ++ [makeWaypoint ts latE7 lonE7] else j.waypoints := by
  unfold appendIfInWindow
  split
  · rfl
  · simp

/-- `appendIfInWindow` never touches the journey bounds. -/
theorem appendIfInWindow_bounds (ts latE7 lonE7 : Int) (j : Journey) :
    (appendIfInWindow ts latE7 lonE7 j).startTime = j.startTime ∧
    (appendIfInWindow ts latE7 lonE7 j).endTime = j.endTime := by
  unfold appendIfInWindow
  split <;> exact ⟨rfl, rfl⟩

/-! ### Claim theorems: the correlator -/

/-- Claim C1: a ping that passes all per-ping filters (in date range, not
the excluded deviceTag, latitude/longitude/accuracy present, accuracy within
threshold) is appended as a waypoint of a journey if and only if
`startTime - 5min < timestamp < endTime + 5min`, both comparisons strict. -/
theorem surviving_ping_appended_iff_window (cfg : Config) (loc : LocationEntry)
    (ts latE7 lonE7 acc : Int) (js : List Journey)
    (hts : loc.timestamp = some ts) (hlat : loc.latitudeE7 = some latE7)
    (hlon : loc.longitudeE7 = some lonE7) (hacc : loc.accuracy = some acc)
    (hsd : ¬ ts < cfg.start_date) (hed : ¬ ts > cfg.end_date)
    (hdev : loc.deviceTag ≠ some excludedDeviceTag)
    (hok : ¬ acc > cfg.accuracy)
    (j : Journey) (_hj : j ∈ js) :
    processLocation cfg js loc = .ok (js.map (appendIfInWindow ts latE7 lonE7)) ∧
    ((appendIfInWindow ts latE7 lonE7 j).waypoints
        = j.waypoints ++ [makeWaypoint ts latE7 lonE7]
      ↔ (j.startTime - fiveMinutes < ts ∧ ts < j.endTime + fiveMinutes)) := by
  refine ⟨processLocation_survive cfg loc ts latE7 lonE7 acc js
    hts hlat hlon hacc hsd hed hdev hok, ?_⟩
  rw [appendIfInWindow_waypoints]
  constructor
  · intro h
    by_contra hw
    rw [if_neg hw] at h
    have := congrArg List.length h
    simp at this
  · intro hw
    rw [if_pos hw]

/-- Claim C3: a ping whose accuracy equals the threshold exactly passes the
accuracy filter and reaches the matching loop; one with accuracy strictly
greater is discarded, leaving every journey unchanged. -/
theorem accuracy_threshold_boundary (cfg : Config) (loc : LocationEntry)
    (ts latE7 lonE7 acc : Int) (js : List Journey)
    (hts : loc.timestamp = some ts) (hlat : loc.latitudeE7 = some latE7)
    (hlon : loc.longitudeE7 = some lonE7) (hacc : loc.accuracy = some acc)
    (hsd : ¬ ts < cfg.start_date) (hed : ¬ ts > cfg.end_date)
    (hdev : loc.deviceTag ≠ some excludedDeviceTag) :
    (acc = cfg.accuracy →
      processLocation cfg js loc = .ok (js.map (appendIfInWindow ts latE7 lonE7))) ∧
    (acc > cfg.accuracy → processLocation cfg js loc = .ok js) := by
  constructor
  · intro heq
    exact processLocation_survive cfg loc ts latE7 lonE7 acc js
      hts hlat hlon hacc hsd hed hdev (by omega)
  · intro hgt
    simp [processLocation, hts, hlat, hlon, hacc, hsd, hed, hdev, hgt]

/-- Claim C7: a ping whose deviceTag is present and equal to the excluded
identifier is rejected and appended to no journey, whatever its accuracy,
coordinates or timestamp. -/
theorem excluded_device_always_rejected (cfg : Config) (loc : LocationEntry)
    (ts : Int) (js : List Journey)
    (hts : loc.timestamp = some ts)
    (hdev : loc.deviceTag = some excludedDeviceTag) :
    processLocation cfg js loc = .ok js := by
  simp [processLocation, hts, hdev]

/-! ### The frame property of the correlation pass -/

/-- The correlator's frame relation: same number of journeys, identical
bounds position by position, and waypoints only ever extended at the end. -/
def JourneyFrame (js js' : List Journey) : Prop :=
  js'.length = js.length ∧
  ∀ (i : Nat) (hi : i < js.length) (hi' : i < js'.length),
    (js'.get ⟨i, hi'⟩).startTime = (js.get ⟨i, hi⟩).startTime ∧
    (js'.get ⟨i, hi'⟩).endTime = (js.get ⟨i, hi⟩).endTime ∧
    ∃ ws, (js'.get ⟨i, hi'⟩).waypoints = (js.get ⟨i, hi⟩).waypoints ++ ws

theorem journeyFrame_refl (js : List Journey) : JourneyFrame js js :=
  ⟨rfl, fun _ _ _ => ⟨rfl, rfl, ⟨[], by simp⟩⟩⟩

theorem journeyFrame_trans {a b c : List Journey}
    (h1 : JourneyFrame a b) (h2 : JourneyFrame b c) : JourneyFrame a c := by
  obtain ⟨hl1, h1⟩ := h1
  obtain ⟨hl2, h2⟩ := h2
  refine ⟨hl2.trans hl1, fun i hi hi' => ?_⟩
  have hib : i < b.length := hl1 ▸ hi
  obtain ⟨e1, f1, w1, p1⟩ := h1 i hi hib
  obtain ⟨e2, f2, w2, p2⟩ := h2 i hib hi'
  exact ⟨e2.trans e1, f2.trans f1, ⟨w1 ++ w2, by rw [p2, p1, List.append_assoc]⟩⟩

theorem journeyFrame_map (js : List Journey) (ts latE7 lonE7 : Int) :
    JourneyFrame js (js.map (appendIfInWindow ts latE7 lonE7)) := by
  refine ⟨by simp, fun i hi hi' => ?_⟩
  simp only [List.get_eq_getElem, List.getElem_map]
  refine ⟨(appendIfInWindow_bounds ts latE7 lonE7 _).1,
    (appendIfInWindow_bounds ts latE7 lonE7 _).2, ?_⟩
  rw [appendIfInWindow_waypoints]
  split
  · exact ⟨[makeWaypoint ts latE7 lonE7], rfl⟩
  · exact ⟨[], by simp⟩

theorem processLocation_frame (cfg : Config) (js js' : List Journey)
    (loc : LocationEntry) (h : processLocation cfg js loc = .ok js') :
    JourneyFrame js js' := by
  unfold processLocation at h
  split at h
  · exact Except.noConfusion h
  · split at h
    · obtain rfl : js = js' := by simpa using h
      exact journeyFrame_refl js
    · split at h
      · split at h
        · obtain rfl : js = js' := by simpa using h
          exact journeyFrame_refl js
        · obtain rfl : js.map (appendIfInWindow _ _ _) = js' := by simpa using h
          exact journeyFrame_map js _ _ _
      · obtain rfl : js = js' := by simpa using h
        exact journeyFrame_refl js

theorem correlate_frame_aux (cfg : Config) :
    ∀ (locs : List LocationEntry) (js js' : List Journey),
      correlate cfg js locs = .ok js' → JourneyFrame js js'
  | [], js, js', h => by
    unfold correlate at h
    obtain rfl : js = js' := by simpa using h
    exact journeyFrame_refl js
  | loc :: rest, js, js', h => by
    unfold correlate at h
    split at h
    · exact Except.noConfusion h
    · rename_i js1 heq
      exact journeyFrame_trans (processLocation_frame cfg js js1 loc heq)
        (correlate_frame_aux cfg rest js1 js' h)

/-- Claim C9: the correlation pass only appends waypoints - afterwards the
number of journeys and every journey's startTime and endTime are exactly as
the extractor produced them; no journey is merged or deleted, and each
waypoint list is an extension of the original one. -/
theorem correlator_only_appends (cfg : Config) (js js' : List Journey)
    (locs : List LocationEntry) (h : correlate cfg js locs = .ok js') :
    js'.length = js.length ∧
    ∀ (i : Nat) (hi : i < js.length) (hi' : i < js'.length),
      (js'.get ⟨i, hi'⟩).startTime = (js.get ⟨i, hi⟩).startTime ∧
      (js'.get ⟨i, hi'⟩).endTime = (js.get ⟨i, hi⟩).endTime ∧
      ∃ ws, (js'.get ⟨i, hi'⟩).waypoints = (js.get ⟨i, hi⟩).waypoints ++ ws :=
  correlate_frame_aux cfg locs js js' h

/-- Claim C8: a single surviving ping whose timestamp lies within the
tolerance windows of two (or more) journeys is appended as a waypoint to
every one of them - no exclusivity, no first-match-wins. -/
theorem overlapping_windows_append_to_all (cfg : Config) (loc : LocationEntry)
    (ts latE7 lonE7 acc : Int) (js : List Journey)
    (hts : loc.timestamp = some ts) (hlat : loc.latitudeE7 = some latE7)
    (hlon : loc.longitudeE7 = some lonE7) (hacc : loc.accuracy = some acc)
    (hsd : ¬ ts < cfg.start_date) (hed : ¬ ts > cfg.end_date)
    (hdev : loc.deviceTag ≠ some excludedDeviceTag)
    (hok : ¬ acc > cfg.accuracy)
    (i k : Nat) (hi : i < js.length) (hk : k < js.length)
    (hwi : (js.get ⟨i, hi⟩).startTime - fiveMinutes < ts ∧
           ts < (js.get ⟨i, hi⟩).endTime + fiveMinutes)
    (hwk : (js.get ⟨k, hk⟩).startTime - fiveMinutes < ts ∧
           ts < (js.get ⟨k, hk⟩).endTime + fiveMinutes) :
    ∃ js', processLocation cfg js loc = .ok js' ∧ js'.length = js.length ∧
      ∀ (hi' : i < js'.length) (hk' : k < js'.length),
        (js'.get ⟨i, hi'⟩).waypoints
          = (js.get ⟨i, hi⟩).waypoints ++ [makeWaypoint ts latE7 lonE7] ∧
        (js'.get ⟨k, hk'⟩).waypoints
          = (js.get ⟨k, hk⟩).waypoints ++ [makeWaypoint ts latE7 lonE7] := by
  refine ⟨js.map (appendIfInWindow ts latE7 lonE7),
    processLocation_survive cfg loc ts latE7 lonE7 acc js
      hts hlat hlon hacc hsd hed hdev hok, by simp, ?_⟩
  intro hi' hk'
  constructor
  · simp only [List.get_eq_getElem, List.getElem_map]
    rw [appendIfInWindow_waypoints, if_pos]
    exact hwi
  · simp only [List.get_eq_getElem, List.getElem_map]
    rw [appendIfInWindow_waypoints, if_pos]
    exact hwk

/-! ### Claim theorems: the extractor -/

/-- Claim C6: one timeline event yields exactly one journey - with the
segment's parsed UTC bounds and an empty waypoint list - if and only if it
carries an activity segment of type `MOTORCYCLING` whose start is not
before `start_date` and whose end is not after `end_date`; any other event
yields nothing. -/
theorem timeline_event_journey_iff (cfg : Config) (ev : TimelineEvent) (J : Journey) :
    extractJourneys cfg [[ev]] = [J] ↔
      ∃ seg, ev.activitySegment = some seg ∧
        seg.activityType = "MOTORCYCLING" ∧
        ¬ seg.duration.startTimestamp < cfg.start_date ∧
        ¬ seg.duration.endTimestamp > cfg.end_date ∧
        J = { startTime := seg.duration.startTimestamp,
              endTime := seg.duration.endTimestamp, waypoints := [] } := by
  have hsingle : extractJourneys cfg [[ev]] = [J] ↔ eventJourney cfg ev = some J := by
    simp [extractJourneys, List.filterMap]
    cases eventJourney cfg ev <;> simp
  rw [hsingle]
  unfold eventJourney
  cases hseg : ev.activitySegment with
  | none => simp
  | some seg =>
    simp only [Option.some.injEq]
    constructor
    · intro h
      split at h
      · split at h
        · exact Option.noConfusion h
        · rename_i hty hrange
          refine ⟨seg, rfl, hty, ?_, ?_, ?_⟩
          · exact fun hc => hrange (Or.inl hc)
          · exact fun hc => hrange (Or.inr hc)
          · exact (Option.some.injEq _ _).mp h |>.symm
      · exact Option.noConfusion h
    · rintro ⟨seg', hseg', hty, hstart, hstop, rfl⟩
      obtain rfl : seg = seg' := hseg'
      rw [if_pos hty, if_neg]
      push_neg
      exact ⟨not_lt.mp hstart, not_lt.mp hstop⟩

/-! ### Claim theorems: the assembler -/

/-- The ordering the output features inherit from their journeys:
comparison of the `startDate` instants. -/
def featureLE (f g : Feature) : Prop := f.startDate.instant ≤ g.startDate.instant

/-- The features loop copies each journey's `startTime` instant into the
feature's `startDate`, in order. -/
theorem featuresFrom_map_startDate :
    ∀ (id : Nat) (js : List Journey),
      (featuresFrom id js).map (fun f => f.startDate.instant)
        = js.map (fun j => j.startTime)
  | _, [] => rfl
  | id, j :: rest => by
    simp only [featuresFrom, List.map_cons, List.cons.injEq]
    exact ⟨rfl, featuresFrom_map_startDate (id + 1) rest⟩

/-- The assembled feature list is sorted by `startDate`. -/
theorem assemble_sorted_by_startDate (js : List Journey) :
    List.Sorted featureLE (assemble js) := by
  have hs : List.Sorted journeyLE (sortJourneys js) :=
    List.sorted_insertionSort journeyLE js
  have h1 : List.Pairwise (fun a b : Int => a ≤ b)
      ((sortJourneys js).map (fun j => j.startTime)) := by
    rw [List.pairwise_map]
    exact hs
  rw [← featuresFrom_map_startDate 1 (sortJourneys js), List.pairwise_map] at h1
  exact h1

/-- Claim C5: in the assembled output, journeys are non-decreasing by
`startTime`; within every journey, the waypoints are non-decreasing by
time; hence the features are non-decreasing by `startDate`. -/
theorem assembled_output_sorted (js : List Journey) :
    List.Sorted journeyLE (sortJourneys js) ∧
    (∀ j ∈ sortJourneys js, List.Sorted waypointLE (sortWaypoints j.waypoints)) ∧
    List.Sorted featureLE (assemble js) :=
  ⟨List.sorted_insertionSort journeyLE js,
   fun j _ => List.sorted_insertionSort waypointLE j.waypoints,
   assemble_sorted_by_startDate js⟩

/-- Each feature emitted by the features loop is a `LineString` over
exactly its journey's (sorted) waypoints. -/
theorem featuresFrom_spec :
    ∀ (id : Nat) (js : List Journey),
      List.Forall₂
        (fun (f : Feature) (j : Journey) =>
          f.geometryType = "LineString" ∧
          f.coordinates = (sortWaypoints j.waypoints).map (fun w => (w.lon, w.lat)) ∧
          f.coordinates.length = j.waypoints.length)
        (featuresFrom id js) js
  | _, [] => List.Forall₂.nil
  | id, j :: rest => by
    refine List.Forall₂.cons ⟨rfl, rfl, ?_⟩ (featuresFrom_spec (id + 1) rest)
    simp [journeyFeature, sortWaypoints, List.length_insertionSort]

/-- Claim C10: the assembler emits exactly one feature per journey; each
feature has geometry type `LineString` and one `[lon, lat]` pair per
waypoint of its journey, so a waypoint-less journey yields a feature with
an empty coordinates list rather than being dropped. -/
theorem one_linestring_feature_per_journey (js : List Journey) :
    (assemble js).length = js.length ∧
    List.Forall₂
      (fun (f : Feature) (j : Journey) =>
        f.geometryType = "LineString" ∧
        f.coordinates = (sortWaypoints j.waypoints).map (fun w => (w.lon, w.lat)) ∧
        f.coordinates.length = j.waypoints.length)
      (assemble js) (sortJourneys js) := by
  have h := featuresFrom_spec 1 (sortJourneys js)
  refine ⟨?_, h⟩
  rw [assemble, h.length_eq]
  exact List.length_insertionSort journeyLE js

/-! ### Concrete inputs for counterexamples and witnesses -/

/-- A concrete configuration: date range `[0, 1000000]`, timezone flag set
to `"UTC"`, accuracy threshold 50. -/
def cfgA : Config :=
  { start_date := 0, end_date := 1000000, timezone := "UTC", accuracy := 50 }

/-- A concrete extracted journey. -/
def journeyA : Journey := { startTime := 600, endTime := 2400, waypoints := [] }

/-- A second journey whose tolerance window overlaps `journeyA`'s. -/
def journeyB : Journey := { startTime := 900, endTime := 3000, waypoints := [] }

/-- A fully valid ping inside `journeyA`'s and `journeyB`'s windows, with
accuracy exactly at the threshold and a non-excluded deviceTag. -/
def locValid : LocationEntry :=
  { timestamp := some 1200, latitudeE7 := some 377490000,
    longitudeE7 := some (-1224000000), accuracy := some 50, deviceTag := some 7 }

/-- A location entry whose `timestamp` key is absent. -/
def locNoTimestamp : LocationEntry :=
  { timestamp := none, latitudeE7 := some 377490000,
    longitudeE7 := some (-1224000000), accuracy := some 10, deviceTag := none }

/-- A valid ping whose optional `deviceTag` key is absent. -/
def locNoDeviceTag : LocationEntry :=
  { timestamp := some 1200, latitudeE7 := some 377490000,
    longitudeE7 := some (-1224000000), accuracy := some 10, deviceTag := none }

/-- A ping whose `latitudeE7` key is absent. -/
def locNoLat : LocationEntry :=
  { timestamp := some 1200, latitudeE7 := none,
    longitudeE7 := some (-1224000000), accuracy := some 10, deviceTag := none }

/-- A ping carrying the excluded deviceTag, otherwise perfectly valid. -/
def locExcluded : LocationEntry :=
  { timestamp := some 1200, latitudeE7 := some 377490000,
    longitudeE7 := some (-1224000000), accuracy := some 10,
    deviceTag := some excludedDeviceTag }

/-- `journeyA` after `locNoDeviceTag`'s ping has been appended. -/
def journeyA1 : Journey :=
  { startTime := 600, endTime := 2400,
    waypoints := [makeWaypoint 1200 377490000 (-1224000000)] }

/-! ### Claim C4: missing optional ping fields -/

/-- Claim C4 counterexample: a location entry with an absent `timestamp`
makes the correlation pass raise (line 100 reads the key unconditionally)
instead of being silently excluded; and a ping with an absent optional
`deviceTag` is not excluded at all - it is appended to the journey. -/
theorem missing_field_not_silently_excluded :
    correlate cfgA [journeyA] [locNoTimestamp] = .error "KeyError: timestamp" ∧
    correlate cfgA [journeyA] [locNoDeviceTag] = .ok [journeyA1] ∧
    journeyA1.waypoints ≠ [] := by
  refine ⟨rfl, ?_, by simp [journeyA1]⟩
  rfl

/-- Claim C4 (amended): a location entry with a timestamp but an absent
`latitudeE7`, `longitudeE7` or `accuracy` field is silently skipped: the
journeys are unchanged, no error is raised, and the remaining entries are
processed exactly as if the entry were not there. -/
theorem missing_coordinate_field_skipped (cfg : Config) (js : List Journey)
    (loc : LocationEntry) (rest : List LocationEntry) (ts : Int)
    (hts : loc.timestamp = some ts)
    (habs : loc.latitudeE7 = none ∨ loc.longitudeE7 = none ∨ loc.accuracy = none) :
    processLocation cfg js loc = .ok js ∧
    correlate cfg js (loc :: rest) = correlate cfg js rest := by
  have hp : processLocation cfg js loc = .ok js := by
    simp only [processLocation, hts]
    split
    · rfl
    · cases hlat : loc.latitudeE7 with
      | none => rfl
      | some latE7 =>
        cases hlon : loc.longitudeE7 with
        | none => rfl
        | some lonE7 =>
          cases hacc : loc.accuracy with
          | none => rfl
          | some acc => rcases habs with h | h | h <;> simp_all
  refine ⟨hp, ?_⟩
  simp only [correlate, hp]

theorem missing_coordinate_field_skipped_witness :
    processLocation cfgA [journeyA] locNoLat = .ok [journeyA] ∧
    correlate cfgA [journeyA] (locNoLat :: [locValid])
      = correlate cfgA [journeyA] [locValid] :=
  missing_coordinate_field_skipped cfgA [journeyA] locNoLat [locValid] 1200
    rfl (Or.inl rfl)

/-! ### Claim C2: the display timezone -/

/-- Claim C2 (code bug): with the `timezone` flag set to `"UTC"`, the
pipeline still renders the waypoint time and the feature
`startDate`/`endDate` in the hardcoded zone `"US/Pacific"` of line 96 -
the configured timezone value is never consulted - while the instant
carried into the window comparison and into the rendered times stays the
raw UTC instant. -/
theorem display_timezone_hardcoded :
    cfgA.timezone = "UTC" ∧
    new_timezone = "US/Pacific" ∧
    correlate cfgA [journeyA] [locNoDeviceTag] = .ok [journeyA1] ∧
    journeyA1.waypoints.map (fun w => w.time)
      = [{ zone := "US/Pacific", instant := 1200 }] ∧
    (journeyFeature 1 journeyA).startDate = { zone := "US/Pacific", instant := 600 } ∧
    (journeyFeature 1 journeyA).endDate = { zone := "US/Pacific", instant := 2400 } :=
  ⟨rfl, rfl, rfl, rfl, rfl, rfl⟩

/-! ### Witnesses -/

theorem surviving_ping_appended_iff_window_witness :
    processLocation cfgA [journeyA] locValid
      = .ok ([journeyA].map (appendIfInWindow 1200 377490000 (-1224000000))) ∧
    ((appendIfInWindow 1200 377490000 (-1224000000) journeyA).waypoints
        = journeyA.waypoints ++ [makeWaypoint 1200 377490000 (-1224000000)]
      ↔ (journeyA.startTime - fiveMinutes < 1200 ∧
         1200 < journeyA.endTime + fiveMinutes)) :=
  surviving_ping_appended_iff_window cfgA locValid 1200 377490000 (-1224000000) 50
    [journeyA] rfl rfl rfl rfl (by decide) (by decide) (by decide) (by decide)
    journeyA (by simp)

theorem accuracy_threshold_boundary_witness :
    ((50 : Int) = cfgA.accuracy →
      processLocation cfgA [journeyA] locValid
        = .ok ([journeyA].map (appendIfInWindow 1200 377490000 (-1224000000)))) ∧
    ((50 : Int) > cfgA.accuracy →
      processLocation cfgA [journeyA] locValid = .ok [journeyA]) :=
  accuracy_threshold_boundary cfgA locValid 1200 377490000 (-1224000000) 50
    [journeyA] rfl rfl rfl rfl (by decide) (by decide) (by decide)

theorem excluded_device_always_rejected_witness :
    processLocation cfgA [journeyA] locExcluded = .ok [journeyA] :=
  excluded_device_always_rejected cfgA locExcluded 1200 [journeyA] rfl rfl

theorem overlapping_windows_append_to_all_witness :
    ∃ js', processLocation cfgA [journeyA, journeyB] locValid = .ok js' ∧
      js'.length = [journeyA, journeyB].length ∧
      ∀ (hi' : 0 < js'.length) (hk' : 1 < js'.length),
        (js'.get ⟨0, hi'⟩).waypoints
          = ([journeyA, journeyB].get ⟨0, by simp⟩).waypoints
              ++ [makeWaypoint 1200 377490000 (-1224000000)] ∧
        (js'.get ⟨1, hk'⟩).waypoints
          = ([journeyA, journeyB].get ⟨1, by simp⟩).waypoints
              ++ [makeWaypoint 1200 377490000 (-1224000000)] :=
  overlapping_windows_append_to_all cfgA locValid 1200 377490000 (-1224000000) 50
    [journeyA, journeyB] rfl rfl rfl rfl (by decide) (by decide) (by decide)
    (by decide) 0 1 (by simp) (by simp) (by decide) (by decide)

theorem correlator_only_appends_witness :
    [journeyA1].length = [journeyA].length ∧
    ∀ (i : Nat) (hi : i < [journeyA].length) (hi' : i < [journeyA1].length),
      ([journeyA1].get ⟨i, hi'⟩).startTime = ([journeyA].get ⟨i, hi⟩).startTime ∧
      ([journeyA1].get ⟨i, hi'⟩).endTime = ([journeyA].get ⟨i, hi⟩).endTime ∧
      ∃ ws, ([journeyA1].get ⟨i, hi'⟩).waypoints
        = ([journeyA].get ⟨i, hi⟩).waypoints ++ ws :=
  correlator_only_appends cfgA [journeyA] [journeyA1] [locNoDeviceTag] rfl
